import Mathlib

/-!
Verification of the InfiniView image-expansion core against its design
specification.

The development shallowly embeds the two functional-core pieces:

* the Canvas Compositor (`CanvasEditor` redraw effect and
  `getCanvasDataUrl` in `src/App.tsx`): percentage padding geometry,
  white fill, source blit, and canvas encoding;
* the Expansion Requester (`expandImage` in `src/services/gemini.ts`):
  prompt construction, data-URL stripping, request assembly, and
  response scanning for the first inline image payload;
* the caller-level guard in `handleGenerate` (`src/App.tsx`).

Raster images are modelled as pixel functions over integer coordinates;
JavaScript numbers used for the percentage settings are modelled as
exact rationals, with `Int.floor` playing the role of `Math.floor`.
-/

/-- An RGBA pixel.  Channel values live on the 8-bit `[0,255]` scale
but are carried as exact rationals so that source-over alpha
compositing (whose ideal result is rational) can be modelled without
committing to a particular rounding; an alpha of 255 is fully
opaque. -/
structure Pixel where
  r : ℚ
  g : ℚ
  b : ℚ
  a : ℚ
deriving DecidableEq, Repr

/-- Opaque white, the fill colour `#FFFFFF` used by the compositor. -/
def white : Pixel := ⟨255, 255, 255, 255⟩

/-- Transparent black, the state of a freshly allocated or freshly
resized HTML canvas. -/
def transparentBlack : Pixel := ⟨0, 0, 0, 0⟩

/-- A decoded source image (`HTMLImageElement` once `onload` has
fired): known pixel dimensions and a pixel lookup function. -/
structure SourceImage where
  width : ℕ
  height : ℕ
  pix : ℤ → ℤ → Pixel

/-- A canvas raster buffer: current resolution plus a pixel lookup
function over integer coordinates. -/
structure CanvasBuf where
  width : ℤ
  height : ℤ
  pix : ℤ → ℤ → Pixel

/-- The expansion settings from `src/types.ts`: four directional pad
percentages and a guidance prompt. -/
structure ExpansionSettings where
  top : ℚ
  bottom : ℚ
  left : ℚ
  right : ℚ
  prompt : String

/-- `canvas.width = w; canvas.height = h`: assigning a canvas its
resolution resets every pixel to transparent black (HTML canvas
semantics), discarding any previous contents. -/
def setCanvasSize (w h : ℤ) (_c : CanvasBuf) : CanvasBuf :=
  ⟨w, h, fun _ _ => transparentBlack⟩

/-- `ctx.fillRect(x0, y0, rw, rh)` with fill colour `col`: overwrite
every pixel of the axis-aligned rectangle with `col`. -/
def fillRect (x0 y0 rw rh : ℤ) (col : Pixel) (c : CanvasBuf) : CanvasBuf :=
  { c with
    pix := fun x y =>
      if x0 ≤ x ∧ x < x0 + rw ∧ y0 ≤ y ∧ y < y0 + rh then col else c.pix x y }

/-- The canvas 2D default `source-over` composite operation on
un-premultiplied RGBA (ideal, exact arithmetic): the source pixel is
alpha-blended over the destination pixel.  A fully opaque source
pixel replaces the destination exactly; a fully transparent one
leaves it unchanged. -/
def blendOver (src dst : Pixel) : Pixel :=
  let sa := src.a / 255
  let da := dst.a / 255
  let oa := sa + da * (1 - sa)
  if oa = 0 then ⟨0, 0, 0, 0⟩
  else ⟨(src.r * sa + dst.r * da * (1 - sa)) / oa,
        (src.g * sa + dst.g * da * (1 - sa)) / oa,
        (src.b * sa + dst.b * da * (1 - sa)) / oa,
        255 * oa⟩

/-- `ctx.drawImage(img, dx, dy)`: paint the source image at offset
`(dx, dy)` with no scaling, compositing each source pixel onto the
canvas with the default `source-over` operation. -/
def drawImage (img : SourceImage) (dx dy : ℤ) (c : CanvasBuf) : CanvasBuf :=
  { c with
    pix := fun x y =>
      if dx ≤ x ∧ x < dx + (img.width : ℤ) ∧ dy ≤ y ∧ y < dy + (img.height : ℤ) then
        blendOver (img.pix (x - dx) (y - dy)) (c.pix x y)
      else c.pix x y }

/-- `Math.floor(w * (settings.left / 100))` from the redraw effect. -/
def padLeft (img : SourceImage) (s : ExpansionSettings) : ℤ :=
  ⌊(img.width : ℚ) * (s.left / 100)⌋

/-- `Math.floor(w * (settings.right / 100))` from the redraw effect. -/
def padRight (img : SourceImage) (s : ExpansionSettings) : ℤ :=
  ⌊(img.width : ℚ) * (s.right / 100)⌋

/-- `Math.floor(h * (settings.top / 100))` from the redraw effect. -/
def padTop (img : SourceImage) (s : ExpansionSettings) : ℤ :=
  ⌊(img.height : ℚ) * (s.top / 100)⌋

/-- `Math.floor(h * (settings.bottom / 100))` from the redraw effect. -/
def padBottom (img : SourceImage) (s : ExpansionSettings) : ℤ :=
  ⌊(img.height : ℚ) * (s.bottom / 100)⌋

/-- `const newWidth = w + padLeft + padRight`. -/
def newWidth (img : SourceImage) (s : ExpansionSettings) : ℤ :=
  (img.width : ℤ) + padLeft img s + padRight img s

/-- `const newHeight = h + padTop + padBottom`. -/
def newHeight (img : SourceImage) (s : ExpansionSettings) : ℤ :=
  (img.height : ℤ) + padTop img s + padBottom img s

/-- The redraw effect of `CanvasEditor` (src/App.tsx lines 347-385):
resize the canvas to the padded dimensions (which clears it), fill the
whole canvas with opaque white, then draw the source image at offset
`(padLeft, padTop)`. -/
def redrawCanvas (img : SourceImage) (s : ExpansionSettings) (c : CanvasBuf) : CanvasBuf :=
  let nw := newWidth img s
  let nh := newHeight img s
  drawImage img (padLeft img s) (padTop img s)
    (fillRect 0 0 nw nh white (setCanvasSize nw nh c))

/-- The scenario settings `{top:0,bottom:0,left:50,right:0,prompt:""}`. -/
def sampleSettings : ExpansionSettings := ⟨0, 0, 50, 0, ""⟩

/-- The serialised (lossless, deterministic) raster encoding of a
canvas, standing for `canvas.toDataURL('image/png')`: all pixels in
row-major order. -/
def encodeCanvas (c : CanvasBuf) : List Pixel :=
  (List.range c.height.toNat).flatMap fun y =>
    (List.range c.width.toNat).map fun x => c.pix (x : ℤ) (y : ℤ)

/-- C9: compositing is deterministic — recompositing the same
`(image, settings)` pair yields a canvas independent of any prior
canvas contents (in particular, compositing twice in a row gives a
pixel-identical canvas), and the serialised encoding is byte-identical
across the two runs. -/
theorem composite_deterministic (img : SourceImage) (s : ExpansionSettings)
    (c₁ c₂ : CanvasBuf) :
    redrawCanvas img s (redrawCanvas img s c₁) = redrawCanvas img s c₂
    ∧ encodeCanvas (redrawCanvas img s (redrawCanvas img s c₁)) =
      encodeCanvas (redrawCanvas img s c₂) :=
  ⟨rfl, rfl⟩

/-- The fixed expansion-instruction text appended to a non-empty
prompt (src/services/gemini.ts line 26). -/
def fillSuffix : String :=
  ". Fill the surrounding empty white space to expand the scene naturally."

/-- The generic fallback instruction used when the prompt is empty
(src/services/gemini.ts line 27). -/
def fallbackInstruction : String :=
  "Fill the surrounding empty white space to expand the scene naturally, matching the existing style and context seamlessly."

/-- `const userPrompt = prompt ? ... : ...` — the user instruction sent
to the model: a non-empty (truthy) prompt gets the fixed suffix
appended, an empty prompt is replaced by the generic fallback. -/
def userPrompt (prompt : String) : String :=
  if prompt = "" then fallbackInstruction else prompt ++ fillSuffix

/-- The data-URL markers recognised by the regex
`/^data:image\/(png|jpeg|jpg|webp);base64,/` in alternation order. -/
def dataUrlHeads : List String :=
  ["data:image/png;base64,", "data:image/jpeg;base64,",
   "data:image/jpg;base64,", "data:image/webp;base64,"]

/-- `base64Image.replace(/^data:image\/(png|jpeg|jpg|webp);base64,/, '')`:
remove a leading data-URL marker of one of the four listed mime types;
leave any other input unchanged. -/
def stripDataUrl (s : String) : String :=
  match dataUrlHeads.find? (fun p => p.toList.isPrefixOf s.toList) with
  | some p => ⟨s.toList.drop p.toList.length⟩
  | none => s

/-- An inline image payload of a request or response part: a declared
mime type and base64 data.  Absent (undefined) string fields are
modelled as `""`, matching JavaScript truthiness checks. -/
structure InlineData where
  mimeType : String
  data : String
deriving DecidableEq, Repr

/-- One part of the single request sent to the model. -/
inductive ReqPart where
  | text (t : String)
  | inline (d : InlineData)
deriving DecidableEq, Repr

/-- The single request assembled by `expandImage`: content parts, the
fixed system instruction, and the fixed sampling temperature. -/
structure GenRequest where
  parts : List ReqPart
  systemInstruction : String
  temperature : ℚ
deriving DecidableEq, Repr

/-- The fixed outpainting system instruction (src/services/gemini.ts
lines 19-23, a template literal with embedded newlines). -/
def outpaintInstruction : String :=
  "You are an expert image editor and artist specializing in \x27outpainting\x27 or image extension. \n    The user will provide an image that has been placed on a larger canvas with white/blank space around it. \n    Your task is to fill in this white space seamlessly, matching the style, lighting, texture, and context of the original central image. \n    Do not alter the original central content if possible, but blend the edges naturally. \n    The output should be a single, cohesive image."

/-- The request assembly in `expandImage` (src/services/gemini.ts lines
29-49): one text part holding the user instruction, one inline-data
part holding the stripped image payload declared as `image/png`, the
fixed system instruction, and temperature 0.4. -/
def buildRequest (base64Image prompt : String) : GenRequest :=
  { parts := [.text (userPrompt prompt), .inline ⟨"image/png", stripDataUrl base64Image⟩],
    systemInstruction := outpaintInstruction,
    temperature := 2 / 5 }

/-- The image payload carried by a request: the data of its first
inline part. -/
def sentImagePayload (r : GenRequest) : Option String :=
  r.parts.findSome? fun p =>
    match p with
    | .inline d => some d.data
    | .text _ => none

/-- One content part of a model response: optional text and an optional
inline image payload. -/
structure RespPart where
  text : String
  inlineData : Option InlineData
deriving DecidableEq, Repr

/-- The content of a response candidate. -/
structure Content where
  parts : List RespPart
deriving DecidableEq, Repr

/-- One response candidate. -/
structure Candidate where
  content : Content
deriving DecidableEq, Repr

/-- A model response: zero or more candidates. -/
structure Response where
  candidates : List Candidate
deriving DecidableEq, Repr

/-- The failure conditions of the Expansion Requester. -/
inductive GemError where
  | noImageReturned
deriving DecidableEq, Repr

/-- `if (part.inlineData && part.inlineData.data)`: a part counts as an
inline image exactly when it carries an inline payload whose data is a
non-empty (truthy) string. -/
def isImagePart (p : RespPart) : Bool :=
  match p.inlineData with
  | some d => !(d.data == "")
  | none => false

/-- The data-URI re-wrapping
`` `data:${part.inlineData.mimeType || 'image/png'};base64,${part.inlineData.data}` ``:
an absent (falsy) mime type defaults to `image/png`. -/
def mkDataUri (d : InlineData) : String :=
  "data:" ++ (if d.mimeType = "" then "image/png" else d.mimeType) ++ ";base64," ++ d.data

/-- The `for (const part of parts)` loop of `expandImage` (lines
56-60): return the re-wrapped payload of the first part with a truthy
inline payload, skipping every other part. -/
def scanParts : List RespPart → Option String
  | [] => none
  | p :: ps =>
    match p.inlineData with
    | some d => if d.data = "" then scanParts ps else some (mkDataUri d)
    | none => scanParts ps

/-- The response handling of `expandImage` (lines 54-63): if there is
at least one candidate, scan the first candidate's content parts for
an inline image; otherwise, or when the scan finds none, fail with the
no-image error. -/
def extractImage (r : Response) : Except GemError String :=
  match r.candidates with
  | [] => .error .noImageReturned
  | c :: _ =>
    match scanParts c.content.parts with
    | some s => .ok s
    | none => .error .noImageReturned

/-- The spec's example response
`[ {text:"here"}, {inlineData:{mimeType:"image/png", data:"AAAA"}} ]`. -/
def exampleResponse : Response :=
  ⟨[⟨⟨[⟨"here", none⟩, ⟨"", some ⟨"image/png", "AAAA"⟩⟩]⟩⟩]⟩

/-- Parts that the scan skips: no inline payload, or an inline payload
with empty (falsy) data. -/
theorem scanParts_eq_none (ps : List RespPart) (h : ∀ q ∈ ps, isImagePart q = false) :
    scanParts ps = none := by
  induction ps with
  | nil => rfl
  | cons p ps ih =>
    have hp := h p (List.mem_cons_self p ps)
    have hps := fun q hq => h q (List.mem_cons_of_mem p hq)
    cases hd : p.inlineData with
    | none => simpa [scanParts, hd] using ih hps
    | some d =>
      have : d.data = "" := by
        simpa [isImagePart, hd] using hp
      simpa [scanParts, hd, this] using ih hps

/-- Skipping a run of non-image parts leaves the scan unchanged. -/
theorem scanParts_append (pre rest : List RespPart) :
    (∀ q ∈ pre, isImagePart q = false) → scanParts (pre ++ rest) = scanParts rest := by
  induction pre with
  | nil => intro _; rfl
  | cons q qs ih =>
    intro h
    have hq := h q (List.mem_cons_self q qs)
    have hqs := fun r hr => h r (List.mem_cons_of_mem q hr)
    cases hqd : q.inlineData with
    | none => simpa [scanParts, hqd] using ih hqs
    | some e =>
      have he : e.data = "" := by
        simpa [isImagePart, hqd] using hq
      simpa [scanParts, hqd, he] using ih hqs

/-- C3: the requester scans the returned content parts in order and
returns the first inline image payload re-wrapped as a data URI with
the part's reported mime type (defaulting to `image/png` when the mime
type is unspecified), ignoring any preceding non-image parts; on the
spec's example parts list it returns `data:image/png;base64,AAAA`. -/
theorem requester_first_image (pre post : List RespPart) (p : RespPart) (d : InlineData)
    (rest : List Candidate)
    (hpre : ∀ q ∈ pre, isImagePart q = false)
    (hp : p.inlineData = some d) (hd : d.data ≠ "") :
    extractImage ⟨⟨⟨pre ++ p :: post⟩⟩ :: rest⟩ =
      .ok ("data:" ++ (if d.mimeType = "" then "image/png" else d.mimeType)
        ++ ";base64," ++ d.data)
    ∧ extractImage exampleResponse = .ok "data:image/png;base64,AAAA" := by
  constructor
  · have hscan : scanParts (pre ++ p :: post) = some (mkDataUri d) := by
      rw [scanParts_append pre (p :: post) hpre]
      simp [scanParts, hp, hd]
    simp [extractImage, hscan, mkDataUri]
  · rfl

/-- Witness for `requester_first_image` at the spec's example parts
list. -/
theorem requester_first_image_witness :
    extractImage exampleResponse = .ok "data:image/png;base64,AAAA" :=
  (requester_first_image [⟨"here", none⟩] [] ⟨"", some ⟨"image/png", "AAAA"⟩⟩
    ⟨"image/png", "AAAA"⟩ [] (by decide) rfl (by decide)).2

/-- C4: a response carrying zero inline image payloads in any content
part of any candidate (in particular a response with no candidates at
all) makes the requester fail with the no-image error, carrying no
partial result. -/
theorem requester_no_image (r : Response)
    (h : ∀ c ∈ r.candidates, ∀ q ∈ c.content.parts, isImagePart q = false) :
    extractImage r = .error .noImageReturned := by
  cases hr : r.candidates with
  | nil => simp [extractImage, hr]
  | cons c cs =>
    have hc : ∀ q ∈ c.content.parts, isImagePart q = false := by
      rw [hr] at h
      exact h c (List.mem_cons_self c cs)
    simp [extractImage, hr, scanParts_eq_none c.content.parts hc]

/-- The spec's refusal example: a response whose only content part is
the text `"sorry"`. -/
def refusalResponse : Response := ⟨[⟨⟨[⟨"sorry", none⟩]⟩⟩]⟩

/-- Witness for `requester_no_image` at the refusal example. -/
theorem requester_no_image_witness :
    extractImage refusalResponse = .error .noImageReturned :=
  requester_no_image refusalResponse (by decide)

/-- A response whose only image-shaped part carries empty data. -/
def emptyDataResponse : Response := ⟨[⟨⟨[⟨"", some ⟨"image/png", ""⟩⟩]⟩⟩]⟩

/-- C10: a part whose inline payload has empty (falsy) data does not
count as an inline image — the scan skips it — so a response whose
only image-shaped part carries empty data fails with the no-image
error. -/
theorem scan_skips_empty_data (ps : List RespPart) (p : RespPart) (d : InlineData)
    (hp : p.inlineData = some d) (hd : d.data = "") :
    isImagePart p = false
    ∧ scanParts (p :: ps) = scanParts ps
    ∧ extractImage emptyDataResponse = .error .noImageReturned := by
  refine ⟨?_, ?_, rfl⟩
  · simp [isImagePart, hp, hd]
  · simp [scanParts, hp, hd]

/-- Witness for `scan_skips_empty_data` at a concrete empty-data
part. -/
theorem scan_skips_empty_data_witness :
    isImagePart ⟨"", some ⟨"image/png", ""⟩⟩ = false
    ∧ extractImage emptyDataResponse = .error .noImageReturned :=
  ⟨(scan_skips_empty_data [] ⟨"", some ⟨"image/png", ""⟩⟩ ⟨"image/png", ""⟩ rfl rfl).1,
   (scan_skips_empty_data [] ⟨"", some ⟨"image/png", ""⟩⟩ ⟨"image/png", ""⟩ rfl rfl).2.2⟩

/-- C6: a non-empty prompt is sent as the prompt concatenated with the
fixed expansion-instruction suffix; an empty prompt is replaced by the
generic fallback instruction; in particular `"a sunset"` yields
`"a sunset"` followed by the fixed suffix. -/
theorem prompt_construction (p : String) :
    (p ≠ "" → userPrompt p = p ++ fillSuffix)
    ∧ (p = "" → userPrompt p = fallbackInstruction)
    ∧ userPrompt "a sunset" = "a sunset" ++ fillSuffix := by
  refine ⟨fun h => by simp [userPrompt, h], fun h => by simp [userPrompt, h], ?_⟩
  simp [userPrompt]

/-- Witness for `prompt_construction` at the spec's two example
prompts. -/
theorem prompt_construction_witness :
    userPrompt "a sunset" = "a sunset" ++ fillSuffix
    ∧ userPrompt "" = fallbackInstruction :=
  ⟨(prompt_construction "a sunset").1 (by decide),
   (prompt_construction "").2.1 rfl⟩

/-- A data-URL input whose mime type is not among the four the regex
recognises. -/
def gifInput : String := "data:image/gif;base64,AAAA"

/-- C8 counterexample: the claim says a buffer carrying a data-URL
marker of ANY image mime type is sent with the marker removed, but a
`image/gif` data URL does not match the regex and is sent unchanged —
not equal to its bare payload `"AAAA"`. -/
theorem strip_misses_gif :
    sentImagePayload (buildRequest gifInput "a sunset") = some gifInput
    ∧ gifInput ≠ "AAAA" := by
  constructor
  · decide
  · decide

/-- C8 (amended): the image payload sent in the single request is the
input buffer with a leading data-URL marker removed when that marker
is one of the four mime types the code recognises (`image/png`,
`image/jpeg`, `image/jpg`, `image/webp`); a buffer starting with none
of those four markers — including data URLs of other image mime
types — is sent unchanged. -/
theorem strip_known_data_urls (buf prompt rest : String) :
    sentImagePayload (buildRequest buf prompt) = some (stripDataUrl buf)
    ∧ stripDataUrl ("data:image/png;base64," ++ rest) = rest
    ∧ stripDataUrl ("data:image/jpeg;base64," ++ rest) = rest
    ∧ stripDataUrl ("data:image/jpg;base64," ++ rest) = rest
    ∧ stripDataUrl ("data:image/webp;base64," ++ rest) = rest
    ∧ ((∀ p ∈ dataUrlHeads, ¬ (p.toList <+: buf.toList)) → stripDataUrl buf = buf) := by
  refine ⟨rfl, ?_, ?_, ?_, ?_, ?_⟩
  · cases rest with | mk l =>
    simp [stripDataUrl, dataUrlHeads, List.find?, List.isPrefixOf, String.toList]
  · cases rest with | mk l =>
    simp [stripDataUrl, dataUrlHeads, List.find?, List.isPrefixOf, String.toList]
  · cases rest with | mk l =>
    simp [stripDataUrl, dataUrlHeads, List.find?, List.isPrefixOf, String.toList]
  · cases rest with | mk l =>
    simp [stripDataUrl, dataUrlHeads, List.find?, List.isPrefixOf, String.toList]
  · intro h
    unfold stripDataUrl
    rw [List.find?_eq_none.mpr]
    intro p hp
    simpa using h p hp

/-- Witness for `strip_known_data_urls`: a prefixed buffer is stripped,
an unprefixed buffer passes through. -/
theorem strip_known_data_urls_witness :
    stripDataUrl ("data:image/png;base64," ++ "AAAA") = "AAAA"
    ∧ stripDataUrl "AAAA" = "AAAA" :=
  ⟨(strip_known_data_urls "AAAA" "a sunset" "AAAA").2.1,
   (strip_known_data_urls "AAAA" "a sunset" "AAAA").2.2.2.2.2 (by decide)⟩

/-- The compositor-side failure taxonomy named by the spec. -/
inductive CompositorError where
  | notReady
deriving DecidableEq, Repr

/-- The value returned by `getCanvasDataUrl`: the empty string (when no
canvas element is mounted) or an encoded canvas. -/
inductive DataUrl where
  | empty
  | png (pixels : List Pixel)
deriving DecidableEq, Repr

/-- The `CanvasEditor` component state: the decoded image object
(populated only once `img.onload` has fired) and the mounted canvas
element's buffer. -/
structure EditorState where
  imageObj : Option SourceImage
  canvas : Option CanvasBuf

/-- The redraw effect (src/App.tsx lines 347-385):
`if (!imageObj || !canvasRef.current) return;` — before the source
image has decoded, or without a canvas, nothing is drawn; otherwise the
canvas is recomposited. -/
def redrawEffect (st : EditorState) (s : ExpansionSettings) : EditorState :=
  match st.imageObj, st.canvas with
  | some img, some c => { st with canvas := some (redrawCanvas img s c) }
  | _, _ => st

/-- `getCanvasDataUrl` (src/App.tsx lines 387-394): return the encoding
of the current canvas when one is mounted, and the empty string
otherwise.  The source never raises an error here, so the embedding is
total in the `Except` error channel. -/
def getCanvasDataUrl (st : EditorState) : Except CompositorError DataUrl :=
  match st.canvas with
  | some c => .ok (.png (encodeCanvas c))
  | none => .ok .empty

/-- A freshly mounted canvas element: the HTML default 300×150 surface,
all transparent black. -/
def defaultCanvas : CanvasBuf := ⟨300, 150, fun _ _ => transparentBlack⟩

/-- The editor before the source image has finished decoding: no image
object yet, default canvas mounted. -/
def preDecodeState : EditorState := ⟨none, some defaultCanvas⟩

/-- C5 counterexample: invoking the compositing pipeline before the
source image has decoded does NOT fail with a `NotReady` condition —
the redraw is silently skipped and `getCanvasDataUrl` returns an
ordinary (non-error) result, here the encoding of the untouched
default canvas. -/
theorem notReady_counterexample :
    getCanvasDataUrl (redrawEffect preDecodeState sampleSettings) ≠
      Except.error CompositorError.notReady
    ∧ getCanvasDataUrl (redrawEffect preDecodeState sampleSettings) =
      Except.ok (DataUrl.png (encodeCanvas defaultCanvas)) := by
  constructor
  · simp [getCanvasDataUrl, redrawEffect, preDecodeState]
  · rfl

/-- C5 (amended): if compositing is invoked before the source image has
finished decoding, the redraw effect is a no-op and `getCanvasDataUrl`
returns normally — the empty string when no canvas element is mounted,
otherwise the encoding of the current (un-composited) canvas; no
`NotReady` error is raised. -/
theorem notReady_amended (st : EditorState) (s : ExpansionSettings)
    (h : st.imageObj = none) :
    redrawEffect st s = st
    ∧ (st.canvas = none → getCanvasDataUrl st = .ok .empty)
    ∧ (∀ c, st.canvas = some c → getCanvasDataUrl st = .ok (.png (encodeCanvas c)))
    ∧ getCanvasDataUrl st ≠ .error CompositorError.notReady := by
  refine ⟨?_, fun hc => by simp [getCanvasDataUrl, hc], fun c hc => by simp [getCanvasDataUrl, hc], ?_⟩
  · unfold redrawEffect
    rw [h]
  · cases hc : st.canvas <;> simp [getCanvasDataUrl, hc]

/-- Witness for `notReady_amended` at the concrete pre-decode state. -/
theorem notReady_amended_witness :
    redrawEffect preDecodeState sampleSettings = preDecodeState
    ∧ getCanvasDataUrl preDecodeState ≠ .error CompositorError.notReady :=
  ⟨(notReady_amended preDecodeState sampleSettings rfl).1,
   (notReady_amended preDecodeState sampleSettings rfl).2.2.2⟩

/-- The application UI states from `src/types.ts`. -/
inductive AppState where
  | IDLE
  | EDITING
  | GENERATING
  | COMPLETE
  | ERROR
deriving DecidableEq, Repr

/-- The `App` component state touched by `handleGenerate`. -/
structure AppModel where
  appState : AppState
  originalImage : Option String
  generatedImage : Option String
  settings : ExpansionSettings
  errorMsg : Option String

/-- The guard message set when all four pad percentages are zero. -/
def zeroExpansionMsg : String :=
  "Please add some expansion area (Top, Bottom, Left, or Right) before generating."

/-- `handleGenerate` (src/App.tsx lines 42-62), with the asynchronous
requester outcome passed in as `req` and the boolean in the result
recording whether `expandImage` was invoked: a missing canvas ref
returns unchanged; the all-zero-settings guard sets only the error
message and returns; otherwise the requester runs and the state is
updated from its outcome. -/
def handleGenerate (m : AppModel) (canvasPresent : Bool)
    (req : Except String String) : AppModel × Bool :=
  if !canvasPresent then (m, false)
  else if m.settings.top = 0 ∧ m.settings.bottom = 0 ∧
      m.settings.left = 0 ∧ m.settings.right = 0 then
    ({ m with errorMsg := some zeroExpansionMsg }, false)
  else
    match req with
    | .ok res =>
      ({ m with appState := .COMPLETE, generatedImage := some res, errorMsg := none }, true)
    | .error e =>
      ({ m with appState := .ERROR, errorMsg := some e }, true)

/-- C7: when all four pad percentages are zero, `handleGenerate`
reports the guard error message and returns without invoking the
requester, leaving the application state (UI state, images, settings)
unchanged. -/
theorem zero_settings_guard (m : AppModel) (req : Except String String)
    (ht : m.settings.top = 0) (hb : m.settings.bottom = 0)
    (hl : m.settings.left = 0) (hr : m.settings.right = 0) :
    (handleGenerate m true req).2 = false
    ∧ (handleGenerate m true req).1.appState = m.appState
    ∧ (handleGenerate m true req).1.originalImage = m.originalImage
    ∧ (handleGenerate m true req).1.generatedImage = m.generatedImage
    ∧ (handleGenerate m true req).1.settings = m.settings
    ∧ (handleGenerate m true req).1.errorMsg = some zeroExpansionMsg := by
  simp [handleGenerate, ht, hb, hl, hr]

/-- A concrete editing-phase model with all-zero pad settings. -/
def zeroPadModel : AppModel :=
  ⟨.EDITING, some "src", none, ⟨0, 0, 0, 0, "a sunset"⟩, none⟩

/-- Witness for `zero_settings_guard` at a concrete all-zero model. -/
theorem zero_settings_guard_witness :
    (handleGenerate zeroPadModel true (.ok "result")).2 = false
    ∧ (handleGenerate zeroPadModel true (.ok "result")).1.appState = zeroPadModel.appState
    ∧ (handleGenerate zeroPadModel true (.ok "result")).1.errorMsg = some zeroExpansionMsg := by
  have h := zero_settings_guard zeroPadModel (.ok "result") rfl rfl rfl rfl
  exact ⟨h.1, h.2.1, h.2.2.2.2.2⟩
